import Mathlib

/-!
Verification of the EDI thread server (src/packages/server/edi-thread-server.py).

The Python source is shallowly embedded: each relevant Python function is
translated to an executable Lean definition over explicit data.  Python's
`None`-or-value idiom is rendered with `Option`, Python truthiness of
optional strings is rendered explicitly (`none` and `some ""` are falsy),
and machine integers are `Int` (Python integers are unbounded, so no
modular wrap is needed).  JSON scalar values appearing in request bodies
are modelled by `PyVal` with the constructors the handlers distinguish.
-/

namespace EDI

/-- ASCII whitespace characters recognised by Python's `str.strip()`
(the source only ever strips ASCII output and header strings). -/
def isPySpace (c : Char) : Bool :=
  c = ' ' || c = '\t' || c = '\n' || c = '\r' || c = '\x0b' || c = '\x0c'

/-- Strip characters satisfying `p` from both ends of a character list. -/
def stripChars (p : Char → Bool) (l : List Char) : List Char :=
  ((l.dropWhile p).reverse.dropWhile p).reverse

/-- Embedding of Python `s.strip()`: remove leading and trailing whitespace. -/
def pyStrip (s : String) : String :=
  String.mk (stripChars isPySpace s.data)

/-- Python truthiness of a `str`-or-`None` value: `None` and `""` are falsy. -/
def pyTruthyOptStr : Option String → Bool
  | none => false
  | some s => s ≠ ""

/-- Python `needle in haystack` on strings: contiguous substring test. -/
def pyInStr (needle haystack : String) : Bool :=
  decide (needle.data <:+: haystack.data)

/-- One character of the thread-id character class `[A-Za-z0-9._-]`. -/
def isThreadIdChar (c : Char) : Bool :=
  c.isAlpha || c.isDigit || c = '.' || c = '_' || c = '-'

/-- Embedding of `THREAD_ID_RE.fullmatch(thread_id)`:
the whole string matches `[A-Za-z0-9._-]+`. -/
def threadIdFullmatch (s : String) : Bool :=
  s.data ≠ [] && s.data.all isThreadIdChar

/-- Embedding of `validate_thread_id` (source lines 309-319).  The input is
already a string (the callers check `isinstance(thread_id, str)` first);
a raised `ValueError` is rendered as `Except.error` with its message. -/
def validate_thread_id (s : String) : Except String String :=
  if s = "" then Except.error "threadId required"
  else if pyInStr "/" s || pyInStr "\\" s || pyInStr ".." s then
    Except.error "Invalid threadId"
  else if !threadIdFullmatch s then Except.error "Invalid threadId"
  else Except.ok s

/-- How the HTTP handlers answer a thread-id validation failure: both the
`/ask` and `/dispatch` handlers catch the `ValueError` and answer
`400 {"error": "Invalid threadId"}` (source lines 839-843 and 934-938). -/
def handle_thread_id (s : String) : Except (Nat × String) String :=
  match validate_thread_id s with
  | Except.ok t => Except.ok t
  | Except.error _ => Except.error (400, "Invalid threadId")

/-- The acceptance predicate exactly as the claim states it: non-empty, no
slash, no backslash, no double-dot substring, full match of the class. -/
def specThreadIdAccepted (s : String) : Bool :=
  s ≠ "" && !pyInStr "/" s && !pyInStr "\\" s && !pyInStr ".." s &&
    threadIdFullmatch s

/-- C5: the thread-id validator accepts a string iff it is non-empty,
contains no slash, backslash or double dot, and fully matches
`[A-Za-z0-9._-]+`; every rejected id is answered as HTTP 400
"Invalid threadId"; in particular "..", "a/b", "a\b" and "" are rejected. -/
theorem claimC5_validate_thread_id_iff :
    (∀ s, (validate_thread_id s).isOk = specThreadIdAccepted s) ∧
    (∀ s, handle_thread_id s =
      if specThreadIdAccepted s then Except.ok s
      else Except.error (400, "Invalid threadId")) ∧
    handle_thread_id ".." = Except.error (400, "Invalid threadId") ∧
    handle_thread_id "a/b" = Except.error (400, "Invalid threadId") ∧
    handle_thread_id "a\\b" = Except.error (400, "Invalid threadId") ∧
    handle_thread_id "" = Except.error (400, "Invalid threadId") := by
  refine ⟨?_, ?_, by rfl, by rfl, by rfl, by rfl⟩
  · intro s
    by_cases h1 : s = "" <;>
      cases hslash : pyInStr "/" s <;> cases hbs : pyInStr "\\" s <;>
        cases hdd : pyInStr ".." s <;> cases hfm : threadIdFullmatch s <;>
          simp [validate_thread_id, specThreadIdAccepted, Except.isOk,
            Except.toBool, h1, hslash, hbs, hdd, hfm]
  · intro s
    by_cases h1 : s = "" <;>
      cases hslash : pyInStr "/" s <;> cases hbs : pyInStr "\\" s <;>
        cases hdd : pyInStr ".." s <;> cases hfm : threadIdFullmatch s <;>
          simp [handle_thread_id, validate_thread_id, specThreadIdAccepted,
            h1, hslash, hbs, hdd, hfm]

theorem dropWhile_dropWhile_self (p : Char → Bool) (l : List Char) :
    (l.dropWhile p).dropWhile p = l.dropWhile p := by
  cases h : l.dropWhile p with
  | nil => rfl
  | cons a t =>
    have ha : p a = false := by
      have := List.head_dropWhile_not p l (by simp [h])
      simpa [h] using this
    simp [List.dropWhile_cons, ha]

theorem dropWhile_eq_self_of_append (p : Char → Bool) (v w : List Char)
    (h : (v ++ w).dropWhile p = v ++ w) : v.dropWhile p = v := by
  cases v with
  | nil => rfl
  | cons a t =>
    have ha : p a = false := by
      by_contra hpa
      have hpa' : p a = true := by
        cases hq : p a with
        | true => rfl
        | false => exact absurd hq hpa
      rw [List.cons_append, List.dropWhile_cons, if_pos hpa'] at h
      have hlen : ((t ++ w).dropWhile p).length = t.length + w.length + 1 := by
        rw [h]
        simp [List.length_append, List.length_cons]
      have hle : ((t ++ w).dropWhile p).length ≤ (t ++ w).length :=
        List.Sublist.length_le (List.dropWhile_sublist (l := t ++ w) p)
      rw [List.length_append] at hle
      omega
    simp [List.dropWhile_cons, ha]

theorem dropWhile_strip_decomp (p : Char → Bool) (l : List Char) :
    l.dropWhile p =
      stripChars p l ++ ((l.dropWhile p).reverse.takeWhile p).reverse := by
  conv_lhs => rw [← List.reverse_reverse (l.dropWhile p),
    ← List.takeWhile_append_dropWhile p (l.dropWhile p).reverse]
  rw [List.reverse_append]
  rfl

theorem stripChars_decomp (p : Char → Bool) (l : List Char) :
    ∃ a b, l = a ++ stripChars p l ++ b ∧
      (∀ c ∈ a, p c = true) ∧ (∀ c ∈ b, p c = true) := by
  refine ⟨l.takeWhile p, ((l.dropWhile p).reverse.takeWhile p).reverse, ?_, ?_, ?_⟩
  · calc l = l.takeWhile p ++ l.dropWhile p :=
        (List.takeWhile_append_dropWhile p l).symm
      _ = l.takeWhile p ++ (stripChars p l ++
            ((l.dropWhile p).reverse.takeWhile p).reverse) := by
          rw [← dropWhile_strip_decomp]
      _ = l.takeWhile p ++ stripChars p l ++
            ((l.dropWhile p).reverse.takeWhile p).reverse := by
          rw [List.append_assoc]
  · intro c hc; exact List.mem_takeWhile_imp hc
  · intro c hc
    exact List.mem_takeWhile_imp (List.mem_reverse.mp hc)

theorem stripChars_dropWhile_self (p : Char → Bool) (l : List Char) :
    (stripChars p l).dropWhile p = stripChars p l := by
  apply dropWhile_eq_self_of_append p (stripChars p l)
    ((l.dropWhile p).reverse.takeWhile p).reverse
  rw [← dropWhile_strip_decomp]
  exact dropWhile_dropWhile_self p l

theorem stripChars_idem (p : Char → Bool) (l : List Char) :
    stripChars p (stripChars p l) = stripChars p l := by
  show (((stripChars p l).dropWhile p).reverse.dropWhile p).reverse = stripChars p l
  rw [stripChars_dropWhile_self]
  show ((((l.dropWhile p).reverse.dropWhile p).reverse.reverse).dropWhile p).reverse
      = stripChars p l
  rw [List.reverse_reverse, dropWhile_dropWhile_self]
  rfl

/-- Outcome of the `try` block of `run_dispatch_task` (source lines 524-553):
the subprocess ran to completion, it was killed on timeout (`error` set to
"timeout"), or an exception was raised (its message is `str(exc)`;
`output` then keeps its initial value `""` and the exit code stays unset). -/
inductive RunOutcome where
  | normal (output : String) (exitCode : Int)
  | timedOut (output : String) (exitCode : Int)
  | excepted (message : String)
deriving DecidableEq

/-- The merged stdout/stderr text captured by `run_dispatch_task`. -/
def runOutput : RunOutcome → String
  | RunOutcome.normal o _ => o
  | RunOutcome.timedOut o _ => o
  | RunOutcome.excepted _ => ""

/-- The `exit_code` variable at the end of the `try` block. -/
def runExitCode : RunOutcome → Option Int
  | RunOutcome.normal _ c => some c
  | RunOutcome.timedOut _ c => some c
  | RunOutcome.excepted _ => none

/-- The `error` variable at the end of the `try` block. -/
def runError : RunOutcome → Option String
  | RunOutcome.normal _ _ => none
  | RunOutcome.timedOut _ _ => some "timeout"
  | RunOutcome.excepted m => some m

/-- Embedding of source lines 555-557:
`output = (output or "").strip()` followed by
`if error and not output: output = f"Error: {error}"`. -/
def finalize_output (output : String) (error : Option String) : String :=
  if pyTruthyOptStr error && (pyStrip output == "") then
    "Error: " ++ error.getD ""
  else pyStrip output

/-- Embedding of source lines 567-571: `status = "completed"`,
`if error: status = "failed"`,
`elif exit_code not in (0, None): status = "failed"`. -/
def classify_status (error : Option String) (exitCode : Option Int) : String :=
  if pyTruthyOptStr error then "failed"
  else if exitCode = some 0 ∨ exitCode = none then "completed"
  else "failed"

/-- Embedding of source lines 567-577: the classification above followed by
the override `if task.get("cancel_requested"): status = "canceled"`. -/
def final_task_status (outcome : RunOutcome) (cancelRequested : Bool) : String :=
  if cancelRequested then "canceled"
  else classify_status (runError outcome) (runExitCode outcome)

/-- C1 counterexample: when the `try` block raises an exception whose
message is the empty string (`str(exc) = ""`), `error` is set to `""`,
which is falsy in Python, so `if error:` does not fire and the exit code
is `None`, so the task ends `"completed"`, not `"failed"` as the claim's
rule "else if an exception or timeout occurred it is failed" requires
(no cancellation was requested here). -/
theorem claimC1_counterexample :
    final_task_status (RunOutcome.excepted "") false = "completed" ∧
    final_task_status (RunOutcome.excepted "") false ≠ "failed" := by
  exact ⟨rfl, by decide⟩

/-- C1 amended: the terminal status is exactly one of completed, failed,
canceled, chosen by: if cancellation was requested, `canceled`; else if a
timeout occurred, or an exception with a non-empty message occurred,
`failed`; an exception with an empty message yields `completed`; else the
status is `completed` iff the exit code is 0. -/
theorem claimC1_amended (outcome : RunOutcome) (cancel : Bool) :
    (cancel = true → final_task_status outcome cancel = "canceled") ∧
    (cancel = false → ∀ o c, outcome = RunOutcome.timedOut o c →
      final_task_status outcome cancel = "failed") ∧
    (cancel = false → ∀ m, m ≠ "" → outcome = RunOutcome.excepted m →
      final_task_status outcome cancel = "failed") ∧
    (cancel = false → outcome = RunOutcome.excepted "" →
      final_task_status outcome cancel = "completed") ∧
    (cancel = false → ∀ o c, outcome = RunOutcome.normal o c →
      final_task_status outcome cancel =
        (if c = 0 then "completed" else "failed")) ∧
    (final_task_status outcome cancel = "completed" ∨
      final_task_status outcome cancel = "failed" ∨
      final_task_status outcome cancel = "canceled") := by
  refine ⟨?_, ?_, ?_, ?_, ?_, ?_⟩
  · intro h; simp [final_task_status, h]
  · rintro h o c rfl
    simp [final_task_status, h, classify_status, runError, runExitCode,
      pyTruthyOptStr]
  · rintro h m hm rfl
    simp [final_task_status, h, classify_status, runError, runExitCode,
      pyTruthyOptStr, hm]
  · rintro h rfl
    simp [final_task_status, h, classify_status, runError, runExitCode,
      pyTruthyOptStr]
  · rintro h o c rfl
    by_cases hc : c = 0 <;>
      simp [final_task_status, h, classify_status, runError, runExitCode,
        pyTruthyOptStr, hc]
  · cases cancel with
    | true => right; right; simp [final_task_status]
    | false =>
      cases outcome with
      | normal o c =>
        by_cases hc : c = 0 <;>
          simp [final_task_status, classify_status, runError, runExitCode,
            pyTruthyOptStr, hc]
      | timedOut o c =>
        simp [final_task_status, classify_status, runError, runExitCode,
          pyTruthyOptStr]
      | excepted m =>
        by_cases hm : m = "" <;>
          simp [final_task_status, classify_status, runError, runExitCode,
            pyTruthyOptStr, hm]

/-- Witness for the amended C1 at a concrete input: a task whose child ran
to completion with exit code 3 and no cancel request ends `failed`. -/
theorem claimC1_amended_witness :
    final_task_status (RunOutcome.normal "out" 3) false =
      (if (3 : Int) = 0 then "completed" else "failed") :=
  (claimC1_amended (RunOutcome.normal "out" 3) false).2.2.2.2.1 rfl "out" 3 rfl

/-- The content rule exactly as the claim states it: only trailing
whitespace is trimmed, and if the trimmed output is empty and an error
exists, the content is the error message itself. -/
def claimC4SpecContent (output : String) (error : Option String) : String :=
  if String.mk ((output.data.reverse.dropWhile isPySpace).reverse) = "" then
    match error with
    | some e => e
    | none => ""
  else String.mk ((output.data.reverse.dropWhile isPySpace).reverse)

/-- C4 counterexample: the code calls `str.strip()`, which removes leading
whitespace as well (content of `"  hi"` becomes `"hi"`, not `"  hi"`), and
on empty output with an error it writes `"Error: " + error`, not the error
message itself (`"Error: timeout"`, not `"timeout"`). -/
theorem claimC4_counterexample :
    finalize_output "  hi" none = "hi" ∧
    claimC4SpecContent "  hi" none = "  hi" ∧
    finalize_output "  hi" none ≠ claimC4SpecContent "  hi" none ∧
    finalize_output "" (some "timeout") = "Error: timeout" ∧
    claimC4SpecContent "" (some "timeout") = "timeout" ∧
    finalize_output "" (some "timeout") ≠ claimC4SpecContent "" (some "timeout") := by
  refine ⟨by decide, by decide, by decide, by decide, by decide, by decide⟩

/-- C4 amended: the content is the merged output with leading AND trailing
whitespace trimmed (the trimmed text is a contiguous block of the original
flanked only by whitespace, and re-trimming it changes nothing); when the
trimmed output is empty and the error is non-empty, the content is
`"Error: "` followed by the error message. -/
theorem claimC4_amended (output : String) (error : Option String) :
    (∃ a b, output.data = a ++ (pyStrip output).data ++ b ∧
      (∀ c ∈ a, isPySpace c = true) ∧ (∀ c ∈ b, isPySpace c = true)) ∧
    pyStrip (pyStrip output) = pyStrip output ∧
    (pyTruthyOptStr error = true → pyStrip output = "" →
      finalize_output output error = "Error: " ++ error.getD "") ∧
    (pyTruthyOptStr error = false →
      finalize_output output error = pyStrip output) ∧
    (pyStrip output ≠ "" → finalize_output output error = pyStrip output) := by
  refine ⟨?_, ?_, ?_, ?_, ?_⟩
  · simpa [pyStrip] using stripChars_decomp isPySpace output.data
  · show String.mk (stripChars isPySpace (pyStrip output).data) = pyStrip output
    have : (pyStrip output).data = stripChars isPySpace output.data := rfl
    rw [this, stripChars_idem]
    rfl
  · intro he ho
    simp [finalize_output, he, ho]
  · intro he
    simp [finalize_output, he]
  · intro ho
    simp [finalize_output, ho]

/-- Witness for the amended C4 at a concrete input: whitespace-flanked
output with a non-empty error present but output non-empty. -/
theorem claimC4_amended_witness :
    finalize_output " x " (some "boom") = pyStrip " x " :=
  (claimC4_amended " x " (some "boom")).2.2.2.2 (by decide)

/-- One JSONL line of a thread file.  `turn` is the entry's turn value when
`int(turn)` converts and `none` when the key is absent or `int(turn)` raises
(`next_turn_number` wraps `int(turn)` in a `try`); `role` is the entry's
role string or `none`; `exitCode` is present on agent-produced entries. -/
structure ThreadEntry where
  turn : Option Int
  role : Option String
  content : String
  ts : Int
  exitCode : Option Int
deriving DecidableEq

/-- A JSON `turn` value classified by the two tests
`filter_entries_for_prompt` applies to it: `int n` when
`isinstance(turn, int)` holds with value `n` (Python `bool` is a subclass
of `int`, so `True`/`False` are `int 1`/`int 0`); `numEq n` when the value
is not an `int` instance but compares equal — Python value equality, as
used by `in` on a set of ints — to the integer `n` (a float such as
`2.0`); `other` when the value is absent or compares equal to no integer
(a string, `null`, a non-integral float).  Every Python value falls in
exactly one class, since a value can equal at most one integer. -/
inductive PyTurn where
  | int (n : Int)
  | numEq (n : Int)
  | other
deriving DecidableEq

/-- One JSONL line of a thread file as `filter_entries_for_prompt` sees
it: the `turn` value refined to its Python comparison behaviour. -/
structure JsonThreadEntry where
  turn : PyTurn
  role : Option String
  content : String
  ts : Int
  exitCode : Option Int
deriving DecidableEq

/-- The `turn_order`/`seen_turns` loop of `filter_entries_for_prompt`
(source lines 400-406): the distinct turns that are `int` instances
(`isinstance(turn, int)`), in order of first occurrence, skipping values
already in `seen`. -/
def turnOrderFrom (seen : List Int) : List JsonThreadEntry → List Int
  | [] => []
  | e :: rest =>
    match e.turn with
    | PyTurn.int t =>
      if t ∈ seen then turnOrderFrom seen rest
      else t :: turnOrderFrom (t :: seen) rest
    | PyTurn.numEq _ => turnOrderFrom seen rest
    | PyTurn.other => turnOrderFrom seen rest

/-- The comprehension condition `entry.get("turn") in selected_turns`
(source line 412): membership in the set of selected integer turns by
Python value equality, so an `int` turn and a non-int numeric turn such
as `2.0` are both members when their integer is selected, while a value
equal to no integer never is. -/
def entrySelected (sel : List Int) (e : JsonThreadEntry) : Bool :=
  match e.turn with
  | PyTurn.int t => decide (t ∈ sel)
  | PyTurn.numEq t => decide (t ∈ sel)
  | PyTurn.other => false

/-- Embedding of `filter_entries_for_prompt` (source lines 395-412). -/
def filter_entries_for_prompt (entries : List JsonThreadEntry)
    (max_turns : Int) : List JsonThreadEntry :=
  if max_turns ≤ 0 then []
  else
    if ((turnOrderFrom [] entries).length : Int) ≤ max_turns then entries
    else
      entries.filter (entrySelected ((turnOrderFrom [] entries).drop
        ((turnOrderFrom [] entries).length - max_turns.toNat)))

/-- The last `k` distinct integer turns of `entries` in insertion order
(`turn_order[-max_turns:]`); empty when `k ≤ 0`. -/
def lastKDistinct (entries : List JsonThreadEntry) (k : Int) : List Int :=
  (turnOrderFrom [] entries).drop ((turnOrderFrom [] entries).length - k.toNat)

/-- Embedding of `next_turn_number` (source lines 371-382): one more than
the largest integer turn, starting from zero. -/
def next_turn_number (entries : List ThreadEntry) : Int :=
  (entries.foldl (fun maxTurn e =>
    match e.turn with
    | some t => if maxTurn < t then t else maxTurn
    | none => maxTurn) 0) + 1

/-- The set comprehension of `existing_agent_for_thread` (source line 387)
as a duplicate-free list: distinct roles other than `None` and "edi",
in order of first occurrence (the caller only inspects its size and, when
it is a singleton, its sole element, so the order is immaterial). -/
def distinctNonEdiRoles (entries : List ThreadEntry) : List String :=
  entries.foldl (fun acc e =>
    match e.role with
    | some r => if r = "edi" then acc else if r ∈ acc then acc else acc ++ [r]
    | none => acc) []

/-- Embedding of `existing_agent_for_thread` (source lines 385-392). -/
def existing_agent_for_thread (entries : List ThreadEntry) : Option String :=
  match distinctNonEdiRoles entries with
  | [] => none
  | [a] => some a
  | _ :: _ :: _ => some "__mixed__"

/-- The `edi` entry appended on dispatch acceptance (source lines 968-973). -/
def mkEdiEntry (turn : Int) (message : String) (ts : Int) : ThreadEntry :=
  { turn := some turn, role := some "edi", content := message,
    ts := ts, exitCode := none }

/-- Result of the binding-check-then-append segment of the `/dispatch`
handler: the 400 response sent on rejection (`none` when accepted), the
thread-file contents afterwards, and the turn number handed to the
supervisor thread on acceptance. -/
structure DispatchStep where
  errorResponse : Option (Nat × String)
  entries : List ThreadEntry
  turn : Option Int
deriving DecidableEq

/-- Embedding of source lines 955-973: reject a mixed thread, reject a
thread bound (per Python truthiness) to a different agent, otherwise
compute the next turn and append the `edi` entry.  `agent` has already
been validated against {codex, claude, gemini} (source line 923). -/
def dispatch_thread_step (entries : List ThreadEntry) (agent message : String)
    (ts : Int) : DispatchStep :=
  if existing_agent_for_thread entries = some "__mixed__" then
    ⟨some (400, "Thread has mixed agents"), entries, none⟩
  else if pyTruthyOptStr (existing_agent_for_thread entries) &&
      !(existing_agent_for_thread entries = some agent) then
    ⟨some (400, "Thread already bound to " ++
      (existing_agent_for_thread entries).getD ""), entries, none⟩
  else
    ⟨none, entries ++ [mkEdiEntry (next_turn_number entries) message ts],
      some (next_turn_number entries)⟩

/-- The agent entry appended by `run_dispatch_task` (source lines 559-565):
it carries the `turn` argument the dispatch handler passed in. -/
def run_dispatch_entry (turn : Int) (agent : String) (outcome : RunOutcome)
    (ts : Int) : ThreadEntry :=
  { turn := some turn, role := some agent,
    content := finalize_output (runOutput outcome) (runError outcome),
    ts := ts, exitCode := runExitCode outcome }

theorem mem_turnOrderFrom (l : List JsonThreadEntry) :
    ∀ (seen : List Int) (t : Int),
    t ∈ turnOrderFrom seen l ↔ t ∉ seen ∧ ∃ e ∈ l, e.turn = PyTurn.int t := by
  induction l with
  | nil => intro seen t; simp [turnOrderFrom]
  | cons e rest ih =>
    intro seen t
    have skip : ∀ (hskip : turnOrderFrom seen (e :: rest) =
        turnOrderFrom seen rest) (hne : e.turn ≠ PyTurn.int t),
        (t ∈ turnOrderFrom seen (e :: rest) ↔
          t ∉ seen ∧ ∃ e' ∈ e :: rest, e'.turn = PyTurn.int t) := by
      intro hskip hne
      rw [hskip, ih seen t]
      constructor
      · rintro ⟨hs, e', he', ht⟩
        exact ⟨hs, e', List.mem_cons_of_mem _ he', ht⟩
      · rintro ⟨hs, e', he', ht⟩
        rcases List.mem_cons.mp he' with rfl | hmem
        · exact absurd ht hne
        · exact ⟨hs, e', hmem, ht⟩
    cases he : e.turn with
    | numEq u =>
      exact skip (by simp [turnOrderFrom, he]) (by simp [he])
    | other =>
      exact skip (by simp [turnOrderFrom, he]) (by simp [he])
    | int u =>
      by_cases hu : u ∈ seen
      · by_cases htu : t = u
        · subst htu
          rw [show turnOrderFrom seen (e :: rest) = turnOrderFrom seen rest
              from by simp [turnOrderFrom, he, hu]]
          rw [ih seen t]
          constructor
          · rintro ⟨hs, -⟩; exact absurd hu hs
          · rintro ⟨hs, -⟩; exact absurd hu hs
        · refine skip (by simp [turnOrderFrom, he, hu]) ?_
          rw [he]
          intro hcontra
          injection hcontra with h4
          exact htu h4.symm
      · rw [show turnOrderFrom seen (e :: rest) =
            u :: turnOrderFrom (u :: seen) rest from by
          simp [turnOrderFrom, he, hu]]
        rw [List.mem_cons, ih (u :: seen) t]
        constructor
        · rintro (rfl | ⟨hs, e', he', ht⟩)
          · exact ⟨hu, e, List.mem_cons_self e rest, he⟩
          · refine ⟨fun hts => hs (List.mem_cons_of_mem _ hts), e',
              List.mem_cons_of_mem _ he', ht⟩
        · rintro ⟨hs, e', he', ht⟩
          rcases List.mem_cons.mp he' with rfl | hmem
          · left
            rw [he] at ht
            injection ht with h4
            exact h4.symm
          · by_cases htu : t = u
            · left; exact htu
            · right
              refine ⟨?_, e', hmem, ht⟩
              intro hmem2
              rcases List.mem_cons.mp hmem2 with h5 | h6
              · exact htu h5
              · exact hs h6

theorem nodup_turnOrderFrom (l : List JsonThreadEntry) :
    ∀ seen : List Int, (turnOrderFrom seen l).Nodup := by
  induction l with
  | nil => intro seen; simp [turnOrderFrom]
  | cons e rest ih =>
    intro seen
    cases he : e.turn with
    | numEq u => simpa [turnOrderFrom, he] using ih seen
    | other => simpa [turnOrderFrom, he] using ih seen
    | int u =>
      by_cases hu : u ∈ seen
      · simpa [turnOrderFrom, he, hu] using ih seen
      · rw [show turnOrderFrom seen (e :: rest) =
            u :: turnOrderFrom (u :: seen) rest from by
          simp [turnOrderFrom, he, hu]]
        rw [List.nodup_cons]
        refine ⟨?_, ih (u :: seen)⟩
        intro hmem
        rcases (mem_turnOrderFrom rest (u :: seen) u).mp hmem with ⟨hs, -⟩
        exact hs (List.mem_cons_self u seen)

theorem turnOrder_filter_mem_sel (entries : List JsonThreadEntry)
    (sel : List Int) (t : Int)
    (ht : t ∈ turnOrderFrom [] (entries.filter (entrySelected sel))) :
    t ∈ sel := by
  rcases (mem_turnOrderFrom _ [] t).mp ht with ⟨-, e, hmem, hturn⟩
  rcases List.mem_filter.mp hmem with ⟨-, hp⟩
  unfold entrySelected at hp
  rw [hturn] at hp
  simpa using hp

theorem length_turnOrder_filter_le (entries : List JsonThreadEntry)
    (sel : List Int) :
    (turnOrderFrom [] (entries.filter (entrySelected sel))).length ≤
      sel.length := by
  apply List.Subperm.length_le
  apply List.Nodup.subperm (nodup_turnOrderFrom _ [])
  intro t ht
  exact turnOrder_filter_mem_sel entries sel t ht

/-- An entry whose `turn` value compares equal to no integer (absent, a
string, a non-integral float, ...). -/
def entryNoTurn : JsonThreadEntry :=
  { turn := PyTurn.other, role := some "edi", content := "x", ts := 0,
    exitCode := none }

/-- C7 counterexample: on `[entryNoTurn]` with `k = 1` no filtering is
triggered (there are 0 distinct integer turns, and 0 ≤ 1), so the entry is
returned even though its turn is not among the last 1 distinct turns
(there are none — membership taken, as Python does, by value equality with
the selected integers), contradicting "containing exactly the entries
whose turn is among the last k distinct turns". -/
theorem claimC7_counterexample :
    filter_entries_for_prompt [entryNoTurn] 1 = [entryNoTurn] ∧
    lastKDistinct [entryNoTurn] 1 = [] ∧
    ¬ (∀ x ∈ filter_entries_for_prompt [entryNoTurn] 1,
        ∃ t, (x.turn = PyTurn.int t ∨ x.turn = PyTurn.numEq t) ∧
          t ∈ lastKDistinct [entryNoTurn] 1) := by
  refine ⟨by decide, by decide, ?_⟩
  intro h
  rcases h entryNoTurn (by decide) with ⟨t, ht | ht, -⟩ <;> cases ht

/-- C7 amended: `filterRecent(entries, k)` is always an order-preserving
subsequence of `entries` and is idempotent for every `k`; when `k ≥ 1` and
`k ≥ distinct_turns(entries)` it returns the input unchanged (entries
whose turn equals no integer are then also kept); when filtering actually
occurs (`k ≤ 0` or `distinct_turns(entries) > k`) it keeps exactly the
entries whose turn value compares equal — Python value equality, so both
int turns and integral float turns such as `2.0` qualify — to an integer
among the last `k` distinct integer turns. -/
theorem claimC7_amended (entries : List JsonThreadEntry) (k : Int) :
    (filter_entries_for_prompt entries k).Sublist entries ∧
    (1 ≤ k → ((turnOrderFrom [] entries).length : Int) ≤ k →
      filter_entries_for_prompt entries k = entries) ∧
    filter_entries_for_prompt (filter_entries_for_prompt entries k) k =
      filter_entries_for_prompt entries k ∧
    ((k ≤ 0 ∨ k < ((turnOrderFrom [] entries).length : Int)) →
      ∀ x, x ∈ filter_entries_for_prompt entries k ↔
        x ∈ entries ∧ ∃ t, (x.turn = PyTurn.int t ∨ x.turn = PyTurn.numEq t)
          ∧ t ∈ lastKDistinct entries k) := by
  by_cases hk : k ≤ 0
  · have hf : filter_entries_for_prompt entries k = [] := by
      simp [filter_entries_for_prompt, hk]
    refine ⟨?_, ?_, ?_, ?_⟩
    · rw [hf]; exact List.nil_sublist entries
    · intro h1; omega
    · rw [hf]; simp [filter_entries_for_prompt, hk]
    · intro _ x
      have hlast : lastKDistinct entries k = [] := by
        unfold lastKDistinct
        have h0 : k.toNat = 0 := by omega
        rw [h0]
        simp [List.drop_length]
      rw [hf, hlast]
      simp
  · by_cases hlen : ((turnOrderFrom [] entries).length : Int) ≤ k
    · have hf : filter_entries_for_prompt entries k = entries := by
        simp [filter_entries_for_prompt, hk, hlen]
      refine ⟨?_, ?_, ?_, ?_⟩
      · rw [hf]
      · intro _ _; exact hf
      · rw [hf, hf]
      · intro hcond
        rcases hcond with h | h
        · omega
        · omega
    · have hklt : k < ((turnOrderFrom [] entries).length : Int) := by omega
      have hknn : 0 ≤ k := by omega
      have htn : (k.toNat : Int) = k := Int.toNat_of_nonneg hknn
      have hkl : k.toNat < (turnOrderFrom [] entries).length := by omega
      have hf : filter_entries_for_prompt entries k =
          entries.filter (entrySelected (lastKDistinct entries k)) := by
        rw [filter_entries_for_prompt, if_neg hk, if_neg hlen]
        rfl
      have hsellen : (lastKDistinct entries k).length = k.toNat := by
        rw [lastKDistinct, List.length_drop]
        omega
      have hlenr :
          ((turnOrderFrom []
            (entries.filter (entrySelected (lastKDistinct entries k)))).length
              : Int) ≤ k := by
        have h1 := length_turnOrder_filter_le entries (lastKDistinct entries k)
        rw [hsellen] at h1
        omega
      refine ⟨?_, ?_, ?_, ?_⟩
      · rw [hf]; exact List.filter_sublist entries
      · intro _ hh; omega
      · rw [hf, filter_entries_for_prompt, if_neg hk, if_pos hlenr]
      · intro _ x
        rw [hf, List.mem_filter]
        cases hx : x.turn with
        | int t => simp [entrySelected, hx]
        | numEq t => simp [entrySelected, hx]
        | other => simp [entrySelected, hx]

/-- Witness for the amended C7 at a concrete input: with turns
[1, 2, float 2.0] and `k = 1` the filtering branch runs (2 distinct
integer turns > 1), the last distinct turn is 2, and the float-turn entry
is kept because `2.0` compares equal to the selected `2`. -/
theorem claimC7_amended_witness :
    ({ turn := PyTurn.numEq 2, role := some "codex", content := "c", ts := 2,
       exitCode := none } : JsonThreadEntry) ∈
      filter_entries_for_prompt
        [{ turn := PyTurn.int 1, role := some "edi", content := "a", ts := 0,
           exitCode := none },
         { turn := PyTurn.int 2, role := some "edi", content := "b", ts := 1,
           exitCode := none },
         { turn := PyTurn.numEq 2, role := some "codex", content := "c",
           ts := 2, exitCode := none }] 1 :=
  ((claimC7_amended
      [{ turn := PyTurn.int 1, role := some "edi", content := "a", ts := 0,
         exitCode := none },
       { turn := PyTurn.int 2, role := some "edi", content := "b", ts := 1,
         exitCode := none },
       { turn := PyTurn.numEq 2, role := some "codex", content := "c",
         ts := 2, exitCode := none }] 1).2.2.2 (Or.inr (by decide)) _).mpr
    ⟨by decide, 2, Or.inr rfl, by decide⟩

/-- C2: a dispatch naming agent B on a thread bound to agent-kind A ≠ B, or
on a thread with two or more distinct non-edi roles, is answered 400 and
the thread-file contents are left unchanged (no entry appended): the
rejection happens before the `append_thread_entry` call. -/
theorem claimC2_binding_conflict_rejected (entries : List ThreadEntry)
    (A B message : String) (ts : Int)
    (_hB : B ∈ (["codex", "claude", "gemini"] : List String)) :
    (A ∈ (["codex", "claude", "gemini"] : List String) →
      existing_agent_for_thread entries = some A → B ≠ A →
      dispatch_thread_step entries B message ts =
        ⟨some (400, "Thread already bound to " ++ A), entries, none⟩) ∧
    (2 ≤ (distinctNonEdiRoles entries).length →
      dispatch_thread_step entries B message ts =
        ⟨some (400, "Thread has mixed agents"), entries, none⟩) := by
  constructor
  · intro hA hex hne
    have hA3 : A = "codex" ∨ A = "claude" ∨ A = "gemini" := by
      simpa using hA
    have hAm : A ≠ "__mixed__" := by
      rcases hA3 with rfl | rfl | rfl <;> decide
    have hAe : A ≠ "" := by
      rcases hA3 with rfl | rfl | rfl <;> decide
    simp [dispatch_thread_step, hex, pyTruthyOptStr, hAm, hAe, hne.symm]
  · intro hlen
    have hex : existing_agent_for_thread entries = some "__mixed__" := by
      rcases hroles : distinctNonEdiRoles entries with - | ⟨a, - | ⟨b, rest⟩⟩
      · rw [hroles] at hlen; simp at hlen
      · rw [hroles] at hlen; simp at hlen
      · simp [existing_agent_for_thread, hroles]
    simp [dispatch_thread_step, hex]

/-- Witness for C2 at a concrete input: a thread holding one codex entry
rejects a claude dispatch with no change to the file contents. -/
theorem claimC2_witness :
    dispatch_thread_step
      [{ turn := some 1, role := some "codex", content := "hi", ts := 0,
         exitCode := some 0 }] "claude" "go" 5 =
      ⟨some (400, "Thread already bound to codex"),
        [{ turn := some 1, role := some "codex", content := "hi", ts := 0,
           exitCode := some 0 }], none⟩ :=
  (claimC2_binding_conflict_rejected
    [{ turn := some 1, role := some "codex", content := "hi", ts := 0,
       exitCode := some 0 }] "codex" "claude" "go" 5 (by decide)).1
    (by decide) (by decide) (by decide)

/-- C10: when a dispatch is accepted, the turn it computes is
`next_turn_number(entries)`; the appended `edi` entry carries that turn,
the same value is handed to the supervisor, and the supervisor writes
exactly that value into the agent reply entry, whatever the run outcome:
each edi/agent pair shares one turn number. -/
theorem claimC10_turn_shared (entries : List ThreadEntry)
    (agent message : String) (ts t : Int)
    (hacc : (dispatch_thread_step entries agent message ts).turn = some t) :
    t = next_turn_number entries ∧
    (dispatch_thread_step entries agent message ts).entries =
      entries ++ [mkEdiEntry t message ts] ∧
    (mkEdiEntry t message ts).turn = some t ∧
    ∀ outcome ts2, (run_dispatch_entry t agent outcome ts2).turn = some t := by
  by_cases h1 : existing_agent_for_thread entries = some "__mixed__"
  · exfalso
    unfold dispatch_thread_step at hacc
    rw [if_pos h1] at hacc
    simp at hacc
  · by_cases h2 : (pyTruthyOptStr (existing_agent_for_thread entries) &&
        !(existing_agent_for_thread entries = some agent)) = true
    · exfalso
      unfold dispatch_thread_step at hacc
      rw [if_neg h1, if_pos h2] at hacc
      simp at hacc
    · unfold dispatch_thread_step at hacc
      rw [if_neg h1, if_neg h2] at hacc
      simp only [Option.some.injEq] at hacc
      subst hacc
      refine ⟨rfl, ?_, rfl, fun outcome ts2 => rfl⟩
      unfold dispatch_thread_step
      rw [if_neg h1, if_neg h2]

/-- Witness for C10 at a concrete input: dispatch on an empty thread
computes turn 1 and the supervisor writes turn 1 into the reply entry. -/
theorem claimC10_turn_shared_witness :
    (run_dispatch_entry 1 "codex" (RunOutcome.normal "done" 0) 7).turn =
      some 1 :=
  (claimC10_turn_shared [] "codex" "build" 3 1 (by decide)).2.2.2
    (RunOutcome.normal "done" 0) 7

/-- Python `a or b` for a `str`-or-`None` left operand (`error or
"Dispatch failed quickly"`, source line 1016). -/
def pyOrStr (v : Option String) (dflt : String) : String :=
  match v with
  | some s => if s = "" then dflt else s
  | none => dflt

/-- The task-registry snapshot the `/dispatch` handler reads after the
early-completion sleep (source lines 1000-1005): the record's `status`,
`exitCode` and `error` fields, and the child-process handle together with
what `process.poll()` returns at that moment (`none` when no handle was
stored yet, `some none` when the child is still running, `some (some c)`
when it exited with code `c`). -/
structure EarlySnapshot where
  status : Option String
  exitCode : Option Int
  error : Option String
  processPoll : Option (Option Int)
deriving DecidableEq

/-- The JSON body and HTTP code of the `/dispatch` response. -/
structure DispatchResponse where
  http : Nat
  ok : Bool
  status : String
  error : Option String
  exitCode : Option Int
deriving DecidableEq

/-- The fall-through `200 {"status": "running"}` response (source lines
1040-1045). -/
def running_response : DispatchResponse :=
  ⟨200, true, "running", none, none⟩

/-- Embedding of the early-completion window of the `/dispatch` handler
(source lines 997-1045): if the configured window is positive, answer with
the snapshot status whenever it is truthy and differs from "running"
(500 when it is "failed", else 200 with `ok` true exactly for "completed"
and "canceled"); otherwise probe the child process directly and derive
completed/failed from its exit code; otherwise answer 200 "running". -/
def early_check_response (earlyPositive : Bool) (snap : EarlySnapshot) :
    DispatchResponse :=
  if earlyPositive then
    if pyTruthyOptStr snap.status && !(snap.status = some "running") then
      if snap.status.getD "" = "failed" then
        ⟨500, false, snap.status.getD "",
          some (pyOrStr snap.error "Dispatch failed quickly"), snap.exitCode⟩
      else
        ⟨200, (snap.status.getD "" = "completed") ||
            (snap.status.getD "" = "canceled"),
          snap.status.getD "", none, snap.exitCode⟩
    else
      match snap.processPoll with
      | some (some code) =>
        if code = 0 then ⟨200, true, "completed", none, some code⟩
        else ⟨500, false, "failed", some "Dispatch failed quickly", some code⟩
      | _ => running_response
  else running_response

/-- C3 counterexample: a cancel request racing the early-completion window
puts the snapshot status at "canceling" (the task has not terminated), and
the handler then answers 200 with `ok: false` and `status: "canceling"` —
a status value outside the claimed set {completed, canceled, failed,
running}, and not the claimed `status: "running"` fall-through either. -/
theorem claimC3_counterexample :
    early_check_response true
        ⟨some "canceling", none, none, some none⟩ =
      ⟨200, false, "canceling", none, none⟩ ∧
    ¬ ((early_check_response true
          ⟨some "canceling", none, none, some none⟩).status = "completed" ∨
        (early_check_response true
          ⟨some "canceling", none, none, some none⟩).status = "canceled" ∨
        (early_check_response true
          ⟨some "canceling", none, none, some none⟩).status = "failed" ∨
        (early_check_response true
          ⟨some "canceling", none, none, some none⟩).status = "running") := by
  exact ⟨by decide, by decide⟩

/-- C3 amended: after the early wait, a truthy snapshot status other than
"running" — terminal or "canceling" — is echoed back (HTTP 500 when it is
"failed", else HTTP 200 with `ok` true exactly for completed/canceled);
with the record still "running", a child that has exited yields
completed/failed from its exit code (200/500); otherwise, and whenever the
window is non-positive, the answer is 200 "running". -/
theorem claimC3_amended (early : Bool) (snap : EarlySnapshot) :
    ((early_check_response early snap).http =
      if (early_check_response early snap).status = "failed" then 500
      else 200) ∧
    ((early_check_response early snap).status = "running" ∨
      snap.status = some (early_check_response early snap).status ∨
      (∃ c, snap.processPoll = some (some c) ∧
        (early_check_response early snap).status =
          (if c = 0 then "completed" else "failed"))) ∧
    (early = false → early_check_response early snap = running_response) ∧
    (∀ s, early = true → snap.status = some s → s ≠ "" → s ≠ "running" →
      (early_check_response early snap).status = s ∧
      (early_check_response early snap).ok =
        ((s = "completed") || (s = "canceled"))) ∧
    (∀ c, early = true → snap.status = some "running" →
      snap.processPoll = some (some c) →
      early_check_response early snap =
        (if c = 0 then ⟨200, true, "completed", none, some c⟩
          else ⟨500, false, "failed", some "Dispatch failed quickly",
            some c⟩)) ∧
    (early = true → snap.status = some "running" →
      (snap.processPoll = none ∨ snap.processPoll = some none) →
      early_check_response early snap = running_response) := by
  refine ⟨?_, ?_, ?_, ?_, ?_, ?_⟩
  · cases early with
    | false => simp [early_check_response, running_response]
    | true =>
      cases hs : snap.status with
      | none =>
        cases hp : snap.processPoll with
        | none => simp [early_check_response, pyTruthyOptStr, hs, hp,
            running_response]
        | some po =>
          cases po with
          | none => simp [early_check_response, pyTruthyOptStr, hs, hp,
              running_response]
          | some c =>
            by_cases hc : c = 0 <;>
              simp [early_check_response, pyTruthyOptStr, hs, hp, hc,
                running_response]
      | some s =>
        by_cases hsr : s = "running"
        · cases hp : snap.processPoll with
          | none => simp [early_check_response, pyTruthyOptStr, hs, hsr, hp,
              running_response]
          | some po =>
            cases po with
            | none => simp [early_check_response, pyTruthyOptStr, hs, hsr,
                hp, running_response]
            | some c =>
              by_cases hc : c = 0 <;>
                simp [early_check_response, pyTruthyOptStr, hs, hsr, hp, hc,
                  running_response]
        · by_cases hse : s = ""
          · subst hse
            cases hp : snap.processPoll with
            | none => simp [early_check_response, pyTruthyOptStr, hs, hp,
                running_response]
            | some po =>
              cases po with
              | none => simp [early_check_response, pyTruthyOptStr, hs, hp,
                  running_response]
              | some c =>
                by_cases hc : c = 0 <;>
                  simp [early_check_response, pyTruthyOptStr, hs, hp, hc,
                    running_response]
          · by_cases hsf : s = "failed" <;>
              simp [early_check_response, pyTruthyOptStr, hs, hsr, hse, hsf,
                running_response]
  · cases early with
    | false => simp [early_check_response, running_response]
    | true =>
      cases hs : snap.status with
      | none =>
        cases hp : snap.processPoll with
        | none => simp [early_check_response, pyTruthyOptStr, hs, hp,
            running_response]
        | some po =>
          cases po with
          | none => simp [early_check_response, pyTruthyOptStr, hs, hp,
              running_response]
          | some c =>
            by_cases hc : c = 0 <;>
              simp [early_check_response, pyTruthyOptStr, hs, hp, hc,
                running_response]
      | some s =>
        by_cases hsr : s = "running"
        · subst hsr
          cases hp : snap.processPoll with
          | none => simp [early_check_response, pyTruthyOptStr, hs, hp,
              running_response]
          | some po =>
            cases po with
            | none => simp [early_check_response, pyTruthyOptStr, hs, hp,
                running_response]
            | some c =>
              by_cases hc : c = 0 <;>
                simp [early_check_response, pyTruthyOptStr, hs, hp, hc,
                  running_response]
        · by_cases hse : s = ""
          · subst hse
            cases hp : snap.processPoll with
            | none => simp [early_check_response, pyTruthyOptStr, hs, hp,
                running_response]
            | some po =>
              cases po with
              | none => simp [early_check_response, pyTruthyOptStr, hs, hp,
                  running_response]
              | some c =>
                by_cases hc : c = 0 <;>
                  simp [early_check_response, pyTruthyOptStr, hs, hp, hc,
                    running_response]
          · by_cases hsf : s = "failed" <;>
              simp [early_check_response, pyTruthyOptStr, hs, hsr, hse, hsf,
                running_response]
  · intro he
    subst he
    simp [early_check_response]
  · intro s he hst hse hsr
    subst he
    by_cases hsf : s = "failed" <;>
      simp [early_check_response, pyTruthyOptStr, hst, hse, hsr, hsf]
  · intro c he hst hp
    subst he
    by_cases hc : c = 0 <;>
      simp [early_check_response, pyTruthyOptStr, hst, hp, hc]
  · intro he hst hp
    subst he
    rcases hp with hp | hp <;>
      simp [early_check_response, pyTruthyOptStr, hst, hp, running_response]

/-- Witness for the amended C3 at a concrete input: a snapshot whose task
already completed is answered 200 completed with `ok` true. -/
theorem claimC3_amended_witness :
    (early_check_response true
        ⟨some "completed", some 0, none, some none⟩).status = "completed" ∧
    (early_check_response true
        ⟨some "completed", some 0, none, some none⟩).ok =
      (("completed" = "completed") || ("completed" = "canceled")) :=
  (claimC3_amended true ⟨some "completed", some 0, none, some none⟩).2.2.2.1
    "completed" rfl rfl (by decide) (by decide)

/-- Parse a run of ASCII digits with Python's single-underscore-between-
digits rule, accumulating into `acc`; fails on anything else. -/
def parseDigitsAux : List Char → Nat → Option Nat
  | [], acc => some acc
  | '_' :: c :: rest, acc =>
    if c.isDigit then parseDigitsAux rest (acc * 10 + (c.toNat - 48))
    else none
  | ['_'], _ => none
  | c :: rest, acc =>
    if c.isDigit then parseDigitsAux rest (acc * 10 + (c.toNat - 48))
    else none

/-- Parse a non-empty digit run (underscores allowed between digits). -/
def parseDigits : List Char → Option Nat
  | [] => none
  | c :: rest =>
    if c.isDigit then parseDigitsAux rest (c.toNat - 48)
    else none

/-- Embedding of Python `int(s)` on the strings this server receives:
surrounding ASCII whitespace is ignored, then an optional sign and a
non-empty digit run; anything else raises `ValueError` (`none`). -/
def parsePyInt (s : String) : Option Int :=
  match stripChars isPySpace s.data with
  | '+' :: rest => (parseDigits rest).map (fun n => (n : Int))
  | '-' :: rest => (parseDigits rest).map (fun n => -(n : Int))
  | rest => (parseDigits rest).map (fun n => (n : Int))

/-- `AUTH_TIMESTAMP_TOLERANCE` (source line 78): 5 minutes in seconds. -/
def AUTH_TIMESTAMP_TOLERANCE : Int := 300

/-- Embedding of `verify_hmac_signature` (source lines 145-172).
`hmacHex` abstracts `hmac.new(secret, ., hashlib.sha256).hexdigest()`
with the secret folded in, and `canonicalPayload` abstracts
`canonicalize_auth_payload(payload)`; `now` is `int(time.time())`.
Returns the `(is_valid, error_message)` pair. -/
def verify_hmac_signature (hmacHex : String → String)
    (canonicalPayload timestamp signature : String) (now : Int) :
    Bool × String :=
  match parsePyInt timestamp with
  | none => (false, "Invalid timestamp format")
  | some ts =>
    if AUTH_TIMESTAMP_TOLERANCE < |now - ts| then
      (false, "Timestamp expired (replay protection)")
    else if ¬ (signature = hmacHex (timestamp ++ ":" ++ canonicalPayload)) then
      (false, "Invalid signature")
    else (true, "")

/-- C6: verification fails with the timestamp-format error when the
timestamp is not numeric; it fails with the replay-protection error
whenever |now − ts| > 300 s, regardless of the signature and of the HMAC
function; and it can only return valid when the timestamp parses and lies
within the ±300 s window. -/
theorem claimC6_hmac_timestamp_window (hmacHex : String → String)
    (canon timestamp signature : String) (now : Int) :
    (parsePyInt timestamp = none →
      verify_hmac_signature hmacHex canon timestamp signature now =
        (false, "Invalid timestamp format")) ∧
    (∀ ts, parsePyInt timestamp = some ts → 300 < |now - ts| →
      verify_hmac_signature hmacHex canon timestamp signature now =
        (false, "Timestamp expired (replay protection)")) ∧
    ((verify_hmac_signature hmacHex canon timestamp signature now).1 = true →
      ∃ ts, parsePyInt timestamp = some ts ∧ |now - ts| ≤ 300) := by
  refine ⟨?_, ?_, ?_⟩
  · intro h
    simp [verify_hmac_signature, h]
  · intro ts hts habs
    simp [verify_hmac_signature, hts, AUTH_TIMESTAMP_TOLERANCE, habs]
  · intro hv
    cases hts : parsePyInt timestamp with
    | none =>
      simp [verify_hmac_signature, hts] at hv
    | some ts =>
      refine ⟨ts, rfl, ?_⟩
      by_contra habs
      push_neg at habs
      simp [verify_hmac_signature, hts, AUTH_TIMESTAMP_TOLERANCE, habs] at hv

/-- Witness for C6 at concrete inputs: a non-numeric timestamp is refused
with the format error, and a stale timestamp is refused with the replay
error even though the supplied signature equals the (constant) HMAC. -/
theorem claimC6_hmac_timestamp_window_witness :
    verify_hmac_signature (fun _ => "sig") "p" "abc" "sig" 0 =
      (false, "Invalid timestamp format") ∧
    verify_hmac_signature (fun _ => "sig") "p" "1000" "sig" 2000 =
      (false, "Timestamp expired (replay protection)") :=
  ⟨(claimC6_hmac_timestamp_window (fun _ => "sig") "p" "abc" "sig" 0).1
      (by decide),
    (claimC6_hmac_timestamp_window (fun _ => "sig") "p" "1000" "sig" 2000).2.1
      1000 (by decide) (by decide)⟩

/-- JSON scalar values appearing in request bodies, with the constructors
the handlers distinguish (`None`, integers, strings, booleans). -/
inductive PyVal where
  | none
  | int (n : Int)
  | str (s : String)
  | bool (b : Bool)
deriving DecidableEq

/-- Python truthiness of a JSON scalar: `None`, `0`, `""` and `False` are
falsy. -/
def pyTruthy : PyVal → Bool
  | PyVal.none => false
  | PyVal.int n => n ≠ 0
  | PyVal.str s => s ≠ ""
  | PyVal.bool b => b

/-- Embedding of `_require_auth` (source lines 733-752): authentication is
skipped when no secret is configured; with a secret, falsy timestamp or
signature headers are answered 401 "Missing authentication headers", and a
failed HMAC verification is answered 401 "Authentication failed".
Returns the error response sent, or `none` when the request may proceed. -/
def require_auth (authSecret hdrTimestamp hdrSignature : Option String)
    (hmacHex : String → String) (canonicalPayload : String) (now : Int) :
    Option (Nat × String) :=
  if ¬ pyTruthyOptStr authSecret then none
  else if ¬ pyTruthyOptStr hdrTimestamp ∨ ¬ pyTruthyOptStr hdrSignature then
    some (401, "Missing authentication headers")
  else if ¬ (verify_hmac_signature hmacHex canonicalPayload
      (hdrTimestamp.getD "") (hdrSignature.getD "") now).1 then
    some (401, "Authentication failed")
  else none

/-- Embedding of the opening of the `/ask` handler (source lines 814-824):
`message = body.get("message")`; a falsy message is answered
400 "message required" BEFORE `_require_auth` runs. -/
def ask_gate (message : PyVal)
    (authSecret hdrTimestamp hdrSignature : Option String)
    (hmacHex : String → String) (canonicalPayload : String) (now : Int) :
    Option (Nat × String) :=
  if ¬ pyTruthy message then some (400, "message required")
  else require_auth authSecret hdrTimestamp hdrSignature hmacHex
    canonicalPayload now

/-- C9: a `/ask` body without a truthy message is answered
400 "message required" no matter how authentication is configured and
whatever the auth headers hold; in particular such a request is never
answered 401. -/
theorem claimC9_message_check_before_auth (message : PyVal)
    (authSecret hdrTimestamp hdrSignature : Option String)
    (hmacHex : String → String) (canon : String) (now : Int)
    (h : pyTruthy message = false) :
    ask_gate message authSecret hdrTimestamp hdrSignature hmacHex canon now =
      some (400, "message required") ∧
    ∀ m, ask_gate message authSecret hdrTimestamp hdrSignature hmacHex canon
        now ≠ some (401, m) := by
  have h400 : ask_gate message authSecret hdrTimestamp hdrSignature hmacHex
      canon now = some (400, "message required") := by
    simp [ask_gate, h]
  refine ⟨h400, fun m hm => ?_⟩
  rw [h400] at hm
  simp at hm

/-- Witness for C9 at a concrete input: an empty message with a configured
secret and absent auth headers is answered 400, not 401. -/
theorem claimC9_message_check_before_auth_witness :
    ask_gate (PyVal.str "") (some "secret") Option.none Option.none
        (fun _ => "") "{}" 0 = some (400, "message required") :=
  (claimC9_message_check_before_auth (PyVal.str "") (some "secret")
    Option.none Option.none (fun _ => "") "{}" 0 (by decide)).1

/-- `DISPATCH_DEFAULT_TIMEOUT` (source line 61) at its default: the
`EDI_DISPATCH_DEFAULT_TIMEOUT` environment variable is unset, so the
default "3600" applies. -/
def DISPATCH_DEFAULT_TIMEOUT : Int := 3600

/-- Embedding of Python `int(value)` on the JSON scalars modelled here:
integers pass through, booleans map to 0/1, strings are parsed, and
`None` raises `TypeError` (`none`). -/
def pyToInt : PyVal → Option Int
  | PyVal.int n => some n
  | PyVal.bool b => some (if b then 1 else 0)
  | PyVal.str s => parsePyInt s
  | PyVal.none => none

/-- The argument of `int(...)` in the `/dispatch` timeout resolution
(source line 941): `body.get("timeout") or body.get("timeoutSeconds") or
DISPATCH_DEFAULT_TIMEOUT` — Python `or` skips falsy operands. -/
def dispatch_timeout_value (timeout timeoutSeconds : PyVal) : PyVal :=
  if pyTruthy timeout then timeout
  else if pyTruthy timeoutSeconds then timeoutSeconds
  else PyVal.int DISPATCH_DEFAULT_TIMEOUT

/-- Embedding of source lines 940-944: the resolved timeout, or `none`
when `int(...)` raises (`TypeError`/`ValueError`), which the handler
answers with 400 "Invalid timeout value". -/
def parse_dispatch_timeout (timeout timeoutSeconds : PyVal) : Option Int :=
  pyToInt (dispatch_timeout_value timeout timeoutSeconds)

/-- C8: a `timeout` of 0 or "" is treated exactly like an absent value
(falling through to `timeoutSeconds`, then to the 3600-second default),
and the resolution fails — yielding the 400 invalid-timeout response —
precisely when the first truthy candidate does not parse as an integer. -/
theorem claimC8_falsy_timeout_defaults (timeout timeoutSeconds w : PyVal) :
    parse_dispatch_timeout (PyVal.int 0) PyVal.none = some 3600 ∧
    parse_dispatch_timeout (PyVal.str "") PyVal.none = some 3600 ∧
    parse_dispatch_timeout (PyVal.int 0) w =
      parse_dispatch_timeout PyVal.none w ∧
    parse_dispatch_timeout (PyVal.str "") w =
      parse_dispatch_timeout PyVal.none w ∧
    (parse_dispatch_timeout timeout timeoutSeconds).isNone =
      (pyTruthy timeout && (pyToInt timeout).isNone ||
        (!pyTruthy timeout && pyTruthy timeoutSeconds &&
          (pyToInt timeoutSeconds).isNone)) := by
  refine ⟨by decide, by decide, rfl, rfl, ?_⟩
  by_cases h1 : pyTruthy timeout = true
  · simp [parse_dispatch_timeout, dispatch_timeout_value, h1]
  · by_cases h2 : pyTruthy timeoutSeconds = true <;>
      simp [parse_dispatch_timeout, dispatch_timeout_value, h1, h2, pyToInt]

end EDI
